import Mathlib

/-!
Shallow embedding of the lithophane STL generator
(`src/utils/stlGenerator.ts`) and verification of its specification.

JavaScript numbers are modelled as exact rationals (`ℚ`); the
transcendental library functions `Math.cos`, `Math.sin`, `Math.sqrt` and
the constant `Math.PI` are abstract oracles (every JS double is a
rational, and these functions are rational-valued on doubles), collected
in a `JSMath` structure that the embedded functions take as a parameter.
`DataView` writes are modelled as an explicit list of write records
(offset, kind, value, endianness flag), mirroring each `set*` call.
-/

namespace STLitho

/-- RGBA pixel buffer: `data` is the flat byte array (4 bytes per pixel),
mirroring the DOM `ImageData` type consumed by `generateSTL`. -/
structure ImageData where
  width : ℕ
  height : ℕ
  data : ℕ → ℕ

/-- The parameter bag passed to `generateSTL` in the source. -/
structure PanelParameters where
  maxHeight : ℚ
  minHeight : ℚ
  outerDiameter : ℚ
  innerDiameter : ℚ
  wallHeight : ℚ
  wallDistance : ℚ
  wallThickness : ℚ

/-- Oracles for the JavaScript `Math` library functions used by the
generator.  `Math.cos`/`Math.sin`/`Math.sqrt` are functions from doubles
to doubles, hence rational-valued on rationals; `Math.PI` is a double. -/
structure JSMath where
  cos : ℚ → ℚ
  sin : ℚ → ℚ
  sqrt : ℚ → ℚ
  pi : ℚ

/-- A 3-D point, single-precision in the source, exact rational here. -/
structure Vec3 where
  x : ℚ
  y : ℚ
  z : ℚ
deriving DecidableEq, Repr

/-- An ordered vertex triple, as passed to `writeTriangle`. -/
structure Tri where
  v1 : Vec3
  v2 : Vec3
  v3 : Vec3
deriving DecidableEq, Repr

/-- Embeds `mapHeightFromGrayscale` (stlGenerator.ts lines 301-306):
grayscale in [0,255] is inverted and scaled into [minHeight, maxHeight]. -/
def mapHeightFromGrayscale (grayscale minHeight maxHeight : ℚ) : ℚ :=
  let normalizedHeight := (255 - grayscale) / 255
  minHeight + normalizedHeight * (maxHeight - minHeight)

/-- The luminance the source computes for the pixel at `(x, y)`:
`r * 0.299 + g * 0.587 + b * 0.114` over the flat RGBA array. -/
def luminance (img : ImageData) (x y : ℕ) : ℚ :=
  let idx := (y * img.width + x) * 4
  (img.data idx : ℚ) * (299 / 1000) + (img.data (idx + 1) : ℚ) * (587 / 1000)
    + (img.data (idx + 2) : ℚ) * (114 / 1000)

/-- Embeds `processImageToHeightMap` (stlGenerator.ts lines 276-298):
nearest-neighbor downsampling of the pixel buffer into a
`resolution × resolution` grid of raw grayscale values. -/
def processImageToHeightMap (img : ImageData) (resolution : ℕ) : List (List ℚ) :=
  (List.range resolution).map fun (i : ℕ) =>
    (List.range resolution).map fun (j : ℕ) =>
      let scaleX : ℚ := (img.width : ℚ) / (resolution : ℚ)
      let scaleY : ℚ := (img.height : ℚ) / (resolution : ℚ)
      let x : ℕ := (Int.floor ((i : ℚ) * scaleX)).toNat
      let y : ℕ := (Int.floor ((j : ℚ) * scaleY)).toNat
      luminance img x y

/-- JavaScript 2-D array indexing `heightMap[i][j]` (in-range in all uses). -/
def hmLookup (m : List (List ℚ)) (i j : ℕ) : ℚ :=
  (m.getD i []).getD j 0

/-- The raw cross product `(v2 - v1) × (v3 - v1)` computed inside
`calculateNormal` (stlGenerator.ts lines 344-351), before normalization. -/
def crossProduct (t : Tri) : Vec3 :=
  let u1 := t.v2.x - t.v1.x
  let u2 := t.v2.y - t.v1.y
  let u3 := t.v2.z - t.v1.z
  let w1 := t.v3.x - t.v1.x
  let w2 := t.v3.y - t.v1.y
  let w3 := t.v3.z - t.v1.z
  ⟨u2 * w3 - u3 * w2, u3 * w1 - u1 * w3, u1 * w2 - u2 * w1⟩

/-- Embeds `calculateNormal` (stlGenerator.ts lines 342-355): the cross
product divided componentwise by its (oracle) Euclidean length.  The
source performs the division unconditionally, with no zero-length check. -/
def calculateNormal (M : JSMath) (t : Tri) : Vec3 :=
  let n := crossProduct t
  let length := M.sqrt (n.x * n.x + n.y * n.y + n.z * n.z)
  ⟨n.x / length, n.y / length, n.z / length⟩

/-- One `DataView` write performed by the serializer: the byte offset,
the value and the little-endian flag of the corresponding `set*` call. -/
inductive WriteRec where
  | u8 (off : ℕ) (v : ℕ)
  | u16 (off : ℕ) (v : ℕ) (le : Bool)
  | u32 (off : ℕ) (v : ℕ) (le : Bool)
  | f32 (off : ℕ) (v : ℚ) (le : Bool)
deriving DecidableEq, Repr

/-- The byte offset a write record starts at. -/
def WriteRec.off : WriteRec → ℕ
  | .u8 o _ => o
  | .u16 o _ _ => o
  | .u32 o _ _ => o
  | .f32 o _ _ => o

/-- Embeds `writeTriangle` (stlGenerator.ts lines 314-339): 3 float32
normal components, 9 float32 vertex coordinates, one uint16 attribute
count of 0, all little-endian; returns the writes and the new offset. -/
def writeTriangle (M : JSMath) (offset : ℕ) (t : Tri) : List WriteRec × ℕ :=
  let n := calculateNormal M t
  ([.f32 offset n.x true, .f32 (offset + 4) n.y true, .f32 (offset + 8) n.z true,
    .f32 (offset + 12) t.v1.x true, .f32 (offset + 16) t.v1.y true, .f32 (offset + 20) t.v1.z true,
    .f32 (offset + 24) t.v2.x true, .f32 (offset + 28) t.v2.y true, .f32 (offset + 32) t.v2.z true,
    .f32 (offset + 36) t.v3.x true, .f32 (offset + 40) t.v3.y true, .f32 (offset + 44) t.v3.z true,
    .u16 (offset + 48) 0 true], offset + 50)

/-- Sequential serialization of a triangle list: the offset-threading
loop of the source (`offset = writeTriangle(view, offset, ...)`)
rendered as recursion. -/
def writeTriangles (M : JSMath) : ℕ → List Tri → List WriteRec × ℕ
  | offset, [] => ([], offset)
  | offset, t :: ts =>
    let p := writeTriangle M offset t
    let q := writeTriangles M p.2 ts
    (p.1 ++ q.1, q.2)

/-- The triangle-count formula of stlGenerator.ts lines 109-119:
top + bottom + inner wall + outer wall + support stand. -/
def numTriangles (R : ℕ) : ℕ :=
  2 * R * R + 2 * R * R + 2 * R + 2 * R + 8 * R

/-- The triangles the main loop (stlGenerator.ts lines 135-209) emits for
cell `(i, j)`: two top, two bottom, plus two inner-wall triangles when
`i = 0` and two outer-wall triangles when `i = R - 1`. -/
def cellTriangles (M : JSMath) (p : PanelParameters) (R : ℕ) (hm : ℕ → ℕ → ℚ)
    (i j : ℕ) : List Tri :=
  let r1 := p.innerDiameter / 2 + ((i : ℚ) / (R : ℚ)) * ((p.outerDiameter - p.innerDiameter) / 2)
  let r2 := p.innerDiameter / 2 + (((i : ℚ) + 1) / (R : ℚ)) * ((p.outerDiameter - p.innerDiameter) / 2)
  let theta1 := ((j : ℚ) / (R : ℚ)) * M.pi * 2
  let theta2 := (((j : ℚ) + 1) / (R : ℚ)) * M.pi * 2
  let h1 := mapHeightFromGrayscale (hm i j) p.minHeight p.maxHeight
  let h2 := mapHeightFromGrayscale (hm i ((j + 1) % R)) p.minHeight p.maxHeight
  let h3 := mapHeightFromGrayscale (hm ((i + 1) % R) j) p.minHeight p.maxHeight
  let h4 := mapHeightFromGrayscale (hm ((i + 1) % R) ((j + 1) % R)) p.minHeight p.maxHeight
  [⟨⟨r1 * M.cos theta1, r1 * M.sin theta1, h1⟩,
    ⟨r2 * M.cos theta1, r2 * M.sin theta1, h3⟩,
    ⟨r1 * M.cos theta2, r1 * M.sin theta2, h2⟩⟩,
   ⟨⟨r1 * M.cos theta2, r1 * M.sin theta2, h2⟩,
    ⟨r2 * M.cos theta1, r2 * M.sin theta1, h3⟩,
    ⟨r2 * M.cos theta2, r2 * M.sin theta2, h4⟩⟩,
   ⟨⟨r1 * M.cos theta1, r1 * M.sin theta1, p.minHeight⟩,
    ⟨r1 * M.cos theta2, r1 * M.sin theta2, p.minHeight⟩,
    ⟨r2 * M.cos theta1, r2 * M.sin theta1, p.minHeight⟩⟩,
   ⟨⟨r1 * M.cos theta2, r1 * M.sin theta2, p.minHeight⟩,
    ⟨r2 * M.cos theta2, r2 * M.sin theta2, p.minHeight⟩,
    ⟨r2 * M.cos theta1, r2 * M.sin theta1, p.minHeight⟩⟩]
  ++ (if i = 0 then
    [⟨⟨r1 * M.cos theta1, r1 * M.sin theta1, p.minHeight⟩,
      ⟨r1 * M.cos theta1, r1 * M.sin theta1, h1⟩,
      ⟨r1 * M.cos theta2, r1 * M.sin theta2, h2⟩⟩,
     ⟨⟨r1 * M.cos theta1, r1 * M.sin theta1, p.minHeight⟩,
      ⟨r1 * M.cos theta2, r1 * M.sin theta2, h2⟩,
      ⟨r1 * M.cos theta2, r1 * M.sin theta2, p.minHeight⟩⟩]
    else [])
  ++ (if i = R - 1 then
    [⟨⟨r2 * M.cos theta1, r2 * M.sin theta1, p.minHeight⟩,
      ⟨r2 * M.cos theta2, r2 * M.sin theta2, h4⟩,
      ⟨r2 * M.cos theta1, r2 * M.sin theta1, h3⟩⟩,
     ⟨⟨r2 * M.cos theta1, r2 * M.sin theta1, p.minHeight⟩,
      ⟨r2 * M.cos theta2, r2 * M.sin theta2, p.minHeight⟩,
      ⟨r2 * M.cos theta2, r2 * M.sin theta2, h4⟩⟩]
    else [])

/-- The eight support-stand triangles per angular segment `j`
(stlGenerator.ts lines 215-270): connecting top face, outer vertical
wall, support wall vertical face, and bottom face, two triangles each. -/
def supportTriangles (M : JSMath) (p : PanelParameters) (R : ℕ) (j : ℕ) : List Tri :=
  let wallRadius := p.wallDistance
  let outerRadius := p.outerDiameter / 2
  let theta1 := ((j : ℚ) / (R : ℚ)) * M.pi * 2
  let theta2 := (((j : ℚ) + 1) / (R : ℚ)) * M.pi * 2
  [⟨⟨outerRadius * M.cos theta1, outerRadius * M.sin theta1, p.minHeight⟩,
    ⟨outerRadius * M.cos theta2, outerRadius * M.sin theta2, p.minHeight⟩,
    ⟨wallRadius * M.cos theta1, wallRadius * M.sin theta1, p.minHeight⟩⟩,
   ⟨⟨wallRadius * M.cos theta1, wallRadius * M.sin theta1, p.minHeight⟩,
    ⟨outerRadius * M.cos theta2, outerRadius * M.sin theta2, p.minHeight⟩,
    ⟨wallRadius * M.cos theta2, wallRadius * M.sin theta2, p.minHeight⟩⟩,
   ⟨⟨outerRadius * M.cos theta1, outerRadius * M.sin theta1, p.minHeight⟩,
    ⟨outerRadius * M.cos theta1, outerRadius * M.sin theta1, -p.wallHeight⟩,
    ⟨outerRadius * M.cos theta2, outerRadius * M.sin theta2, p.minHeight⟩⟩,
   ⟨⟨outerRadius * M.cos theta2, outerRadius * M.sin theta2, p.minHeight⟩,
    ⟨outerRadius * M.cos theta1, outerRadius * M.sin theta1, -p.wallHeight⟩,
    ⟨outerRadius * M.cos theta2, outerRadius * M.sin theta2, -p.wallHeight⟩⟩,
   ⟨⟨wallRadius * M.cos theta1, wallRadius * M.sin theta1, p.minHeight⟩,
    ⟨wallRadius * M.cos theta2, wallRadius * M.sin theta2, p.minHeight⟩,
    ⟨wallRadius * M.cos theta1, wallRadius * M.sin theta1, -p.wallHeight⟩⟩,
   ⟨⟨wallRadius * M.cos theta2, wallRadius * M.sin theta2, p.minHeight⟩,
    ⟨wallRadius * M.cos theta2, wallRadius * M.sin theta2, -p.wallHeight⟩,
    ⟨wallRadius * M.cos theta1, wallRadius * M.sin theta1, -p.wallHeight⟩⟩,
   ⟨⟨outerRadius * M.cos theta1, outerRadius * M.sin theta1, -p.wallHeight⟩,
    ⟨wallRadius * M.cos theta1, wallRadius * M.sin theta1, -p.wallHeight⟩,
    ⟨outerRadius * M.cos theta2, outerRadius * M.sin theta2, -p.wallHeight⟩⟩,
   ⟨⟨wallRadius * M.cos theta1, wallRadius * M.sin theta1, -p.wallHeight⟩,
    ⟨wallRadius * M.cos theta2, wallRadius * M.sin theta2, -p.wallHeight⟩,
    ⟨outerRadius * M.cos theta2, outerRadius * M.sin theta2, -p.wallHeight⟩⟩]

/-- The full ordered triangle sequence generateSTL emits: the doubly
nested main loop over all cells, then the support-stand loop. -/
def buildMesh (M : JSMath) (p : PanelParameters) (R : ℕ) (hm : ℕ → ℕ → ℚ) : List Tri :=
  ((List.range R).flatMap fun i =>
    (List.range R).flatMap fun j => cellTriangles M p R hm i j)
  ++ ((List.range R).flatMap fun j => supportTriangles M p R j)

/-- The observable output of the embedded `generateSTL`: the allocated
buffer size, the sequence of `DataView` writes, the final value of the
write cursor, and the emitted triangle sequence. -/
structure STLOutput where
  bufferSize : ℕ
  writes : List WriteRec
  finalOffset : ℕ
  triangles : List Tri

/-- Embeds the STL path of `generateSTL` (stlGenerator.ts lines 71-273):
resolution from the image, height map, analytic triangle count, buffer
allocation of `84 + 50 N` bytes, zero header, little-endian count at
offset 80, then the triangles written sequentially from offset 84.
The source performs no parameter or image validation: the function is
total and never signals an error. -/
def generateSTL (M : JSMath) (img : ImageData) (p : PanelParameters) : STLOutput :=
  let RESOLUTION := min img.width img.height
  let heightMap := processImageToHeightMap img RESOLUTION
  let hm := hmLookup heightMap
  let numRadialSegments := RESOLUTION
  let numCircularSegments := RESOLUTION
  let nT := 2 * numRadialSegments * numCircularSegments
    + 2 * numRadialSegments * numCircularSegments
    + 2 * numCircularSegments + 2 * numCircularSegments
    + 8 * numCircularSegments
  let headerWrites := (List.range 80).map fun k => WriteRec.u8 k 0
  let mesh := buildMesh M p RESOLUTION hm
  let tw := writeTriangles M 84 mesh
  { bufferSize := 84 + nT * 50
    writes := headerWrites ++ [.u32 80 nT true] ++ tw.1
    finalOffset := tw.2
    triangles := mesh }

/-! ### Counting lemmas -/

lemma sum_map_range_ite (R c k : ℕ) (hk : k < R) :
    ((List.range R).map fun i => if i = k then c else 0).sum = c := by
  induction R with
  | zero => omega
  | succ n ih =>
    rw [List.range_succ, List.map_append, List.sum_append]
    by_cases h : k = n
    · subst h
      have h0 : ((List.range k).map fun i => if i = k then c else 0).sum = 0 := by
        apply List.sum_eq_zero
        intro x hx
        simp only [List.mem_map, List.mem_range] at hx
        obtain ⟨i, hi, rfl⟩ := hx
        simp [Nat.ne_of_lt hi]
      simp [h0]
    · have hk' : k < n := by omega
      rw [ih hk']
      simp only [List.map_cons, List.map_nil, List.sum_cons, List.sum_nil]
      rw [if_neg (by omega : ¬ n = k)]
      omega

lemma length_cellTriangles (M : JSMath) (p : PanelParameters) (R : ℕ)
    (hm : ℕ → ℕ → ℚ) (i j : ℕ) :
    (cellTriangles M p R hm i j).length
      = 4 + (if i = 0 then 2 else 0) + (if i = R - 1 then 2 else 0) := by
  simp only [cellTriangles, List.length_append]
  split_ifs <;> simp

lemma length_supportTriangles (M : JSMath) (p : PanelParameters) (R j : ℕ) :
    (supportTriangles M p R j).length = 8 := rfl

lemma length_buildMesh (M : JSMath) (p : PanelParameters) (R : ℕ)
    (hm : ℕ → ℕ → ℚ) :
    (buildMesh M p R hm).length = numTriangles R := by
  rcases Nat.eq_zero_or_pos R with hR | hR
  · subst hR
    simp [buildMesh, numTriangles]
  have hcell : ∀ i, ((List.range R).flatMap fun j => cellTriangles M p R hm i j).length
      = 4 * R + (if i = 0 then 2 * R else 0) + (if i = R - 1 then 2 * R else 0) := by
    intro i
    rw [List.length_flatMap]
    have : ((List.range R).map fun j => (cellTriangles M p R hm i j).length).sum
        = ((List.range R).map fun _ =>
            4 + (if i = 0 then 2 else 0) + (if i = R - 1 then 2 else 0)).sum := by
      simp [length_cellTriangles]
    rw [Function.comp_def, this, List.map_const', List.sum_replicate, smul_eq_mul,
      List.length_range]
    split_ifs <;> ring
  have hmain : (((List.range R).flatMap fun i =>
      (List.range R).flatMap fun j => cellTriangles M p R hm i j)).length
      = 4 * R * R + 2 * R + 2 * R := by
    rw [List.length_flatMap, Function.comp_def]
    have : ((List.range R).map fun i =>
        ((List.range R).flatMap fun j => cellTriangles M p R hm i j).length).sum
        = ((List.range R).map fun i =>
            (4 * R + (if i = 0 then 2 * R else 0)) + (if i = R - 1 then 2 * R else 0)).sum := by
      simp only [hcell]
    rw [this, List.sum_map_add, List.sum_map_add, List.map_const', List.sum_replicate,
      smul_eq_mul, List.length_range,
      sum_map_range_ite R (2 * R) 0 (by omega),
      sum_map_range_ite R (2 * R) (R - 1) (by omega)]
    ring
  have hsup : (((List.range R).flatMap fun j => supportTriangles M p R j)).length
      = 8 * R := by
    rw [List.length_flatMap, Function.comp_def]
    have : ((List.range R).map fun j => (supportTriangles M p R j).length).sum
        = ((List.range R).map fun _ => 8).sum := by
      simp [length_supportTriangles]
    rw [this, List.map_const', List.sum_replicate, smul_eq_mul, List.length_range]
    ring
  rw [buildMesh, List.length_append, hmain, hsup, numTriangles]
  ring

lemma writeTriangles_snd (M : JSMath) (ts : List Tri) :
    ∀ off, (writeTriangles M off ts).2 = off + 50 * ts.length := by
  induction ts with
  | nil => intro off; simp [writeTriangles]
  | cons t ts ih =>
    intro off
    simp only [writeTriangles, writeTriangle, ih, List.length_cons]
    ring

/-- Claim C1: for every valid parameter record and square height map of
side `R ≥ 1` (here `R = min width height ≥ 1`), `generateSTL` emits
exactly `numTriangles R = 2R² + 2R² + 2R + 2R + 8R` triangles, writes
that same count as the 32-bit little-endian field at offset 80, and the
write cursor after the last triangle equals the end of the allocated
`84 + 50·N`-byte buffer; in particular `numTriangles 2 = 40`. -/
theorem C1_triangle_count (M : JSMath) (img : ImageData) (p : PanelParameters)
    (hR : 1 ≤ min img.width img.height) :
    (generateSTL M img p).triangles.length = numTriangles (min img.width img.height)
    ∧ WriteRec.u32 80 (numTriangles (min img.width img.height)) true
        ∈ (generateSTL M img p).writes
    ∧ (generateSTL M img p).finalOffset = (generateSTL M img p).bufferSize
    ∧ (generateSTL M img p).bufferSize
        = 84 + 50 * numTriangles (min img.width img.height)
    ∧ numTriangles 2 = 40 := by
  have hlen : (generateSTL M img p).triangles.length
      = numTriangles (min img.width img.height) := by
    simp only [generateSTL]
    exact length_buildMesh _ _ _ _
  have hN : 2 * min img.width img.height * min img.width img.height
      + 2 * min img.width img.height * min img.width img.height
      + 2 * min img.width img.height + 2 * min img.width img.height
      + 8 * min img.width img.height = numTriangles (min img.width img.height) := rfl
  refine ⟨hlen, ?_, ?_, ?_, by decide⟩
  · simp only [generateSTL, List.mem_append, List.mem_singleton]
    exact Or.inl (Or.inr rfl)
  · simp only [generateSTL, writeTriangles_snd]
    have := length_buildMesh M p (min img.width img.height)
      (hmLookup (processImageToHeightMap img (min img.width img.height)))
    rw [this, numTriangles]
    ring
  · simp only [generateSTL, numTriangles]
    ring

/-- Concrete witness for `C1_triangle_count` at a 1×1 black image. -/
theorem C1_triangle_count_witness :
    1 ≤ min (ImageData.mk 1 1 fun _ => 0).width (ImageData.mk 1 1 fun _ => 0).height
    ∧ ((generateSTL ⟨fun _ => 0, fun _ => 0, fun _ => 0, 0⟩
          (ImageData.mk 1 1 fun _ => 0) ⟨3, 1/2, 100, 30, 5, 40, 1/2⟩).triangles.length
        = numTriangles (min 1 1)
      ∧ WriteRec.u32 80 (numTriangles (min 1 1)) true
          ∈ (generateSTL ⟨fun _ => 0, fun _ => 0, fun _ => 0, 0⟩
              (ImageData.mk 1 1 fun _ => 0) ⟨3, 1/2, 100, 30, 5, 40, 1/2⟩).writes
      ∧ (generateSTL ⟨fun _ => 0, fun _ => 0, fun _ => 0, 0⟩
            (ImageData.mk 1 1 fun _ => 0) ⟨3, 1/2, 100, 30, 5, 40, 1/2⟩).finalOffset
          = (generateSTL ⟨fun _ => 0, fun _ => 0, fun _ => 0, 0⟩
              (ImageData.mk 1 1 fun _ => 0) ⟨3, 1/2, 100, 30, 5, 40, 1/2⟩).bufferSize
      ∧ (generateSTL ⟨fun _ => 0, fun _ => 0, fun _ => 0, 0⟩
            (ImageData.mk 1 1 fun _ => 0) ⟨3, 1/2, 100, 30, 5, 40, 1/2⟩).bufferSize
          = 84 + 50 * numTriangles (min 1 1)
      ∧ numTriangles 2 = 40) :=
  ⟨by decide,
   C1_triangle_count ⟨fun _ => 0, fun _ => 0, fun _ => 0, 0⟩
     (ImageData.mk 1 1 fun _ => 0) ⟨3, 1/2, 100, 30, 5, 40, 1/2⟩ (by decide)⟩

/-! ### Claim C3: the height mapping -/

/-- Claim C3: for grayscale `g` in [0,255] and `minHeight < maxHeight`,
`mapHeightFromGrayscale` returns
`minHeight + ((255 - g)/255) * (maxHeight - minHeight)`, the result lies
in `[minHeight, maxHeight]`, and the map is strictly decreasing in `g`. -/
theorem C3_height_mapping (g g2 minH maxH : ℚ) (hg0 : 0 ≤ g) (hg1 : g ≤ 255)
    (hg2 : g2 ≤ 255) (hlt : minH < maxH) :
    mapHeightFromGrayscale g minH maxH = minH + ((255 - g) / 255) * (maxH - minH)
    ∧ minH ≤ mapHeightFromGrayscale g minH maxH
    ∧ mapHeightFromGrayscale g minH maxH ≤ maxH
    ∧ (g < g2 → mapHeightFromGrayscale g2 minH maxH < mapHeightFromGrayscale g minH maxH) := by
  unfold mapHeightFromGrayscale
  have hq0 : (0 : ℚ) ≤ (255 - g) / 255 :=
    div_nonneg (by linarith) (by norm_num)
  have hq1 : (255 - g) / 255 ≤ 1 := by
    rw [div_le_one (by norm_num : (0 : ℚ) < 255)]
    linarith
  have hd : (0 : ℚ) ≤ maxH - minH := by linarith
  refine ⟨rfl, ?_, ?_, ?_⟩
  · nlinarith
  · nlinarith
  · intro hglt
    have hstep : (255 - g2) / 255 < (255 - g) / 255 := by
      gcongr
    have := mul_lt_mul_of_pos_right hstep (by linarith : (0 : ℚ) < maxH - minH)
    linarith

/-- Concrete witness for `C3_height_mapping`. -/
theorem C3_height_mapping_witness :
    ((0 : ℚ) ≤ 100 ∧ (100 : ℚ) ≤ 255 ∧ (200 : ℚ) ≤ 255 ∧ (1/2 : ℚ) < 3)
    ∧ (mapHeightFromGrayscale 100 (1/2) 3 = 1/2 + ((255 - 100) / 255) * (3 - 1/2)
      ∧ 1/2 ≤ mapHeightFromGrayscale 100 (1/2) 3
      ∧ mapHeightFromGrayscale 100 (1/2) 3 ≤ 3
      ∧ ((100 : ℚ) < 200 →
          mapHeightFromGrayscale 200 (1/2) 3 < mapHeightFromGrayscale 100 (1/2) 3)) :=
  ⟨by norm_num,
   C3_height_mapping 100 200 (1/2) 3 (by norm_num) (by norm_num) (by norm_num) (by norm_num)⟩

/-! ### Claim C2: serialized buffer layout -/

/-- The 13 `DataView` writes of one 50-byte triangle record starting at
byte `base`: 12 bytes of normal (3 float32, little-endian), 36 bytes of
vertex data (3 vertices of 3 float32, little-endian), then a 2-byte
attribute count that is 0. -/
def recordWrites (M : JSMath) (base : ℕ) (t : Tri) : List WriteRec :=
  let n := calculateNormal M t
  [.f32 base n.x true, .f32 (base + 4) n.y true, .f32 (base + 8) n.z true,
   .f32 (base + 12) t.v1.x true, .f32 (base + 16) t.v1.y true, .f32 (base + 20) t.v1.z true,
   .f32 (base + 24) t.v2.x true, .f32 (base + 28) t.v2.y true, .f32 (base + 32) t.v2.z true,
   .f32 (base + 36) t.v3.x true, .f32 (base + 40) t.v3.y true, .f32 (base + 44) t.v3.z true,
   .u16 (base + 48) 0 true]

/-- The writes of consecutive 50-byte records, the `k`-th starting at
`off + 50 k`. -/
def recordsFrom (M : JSMath) : ℕ → List Tri → List WriteRec
  | _, [] => []
  | off, t :: ts => recordWrites M off t ++ recordsFrom M (off + 50) ts

lemma writeTriangles_fst (M : JSMath) (ts : List Tri) :
    ∀ off, (writeTriangles M off ts).1 = recordsFrom M off ts := by
  induction ts with
  | nil => intro off; rfl
  | cons t ts ih =>
    intro off
    simp only [writeTriangles, writeTriangle, recordsFrom, recordWrites]
    rw [ih]

lemma recordsFrom_off_le (M : JSMath) (ts : List Tri) :
    ∀ off w, w ∈ recordsFrom M off ts → off ≤ w.off := by
  induction ts with
  | nil => intro off w hw; simp [recordsFrom] at hw
  | cons t ts ih =>
    intro off w hw
    rw [recordsFrom, List.mem_append] at hw
    rcases hw with hw | hw
    · simp only [recordWrites, List.mem_cons, List.mem_singleton, List.not_mem_nil,
        or_false] at hw
      rcases hw with rfl | rfl | rfl | rfl | rfl | rfl | rfl | rfl | rfl | rfl | rfl | rfl | rfl
      all_goals simp [WriteRec.off]
    · have := ih (off + 50) w hw
      omega

lemma recordsFrom_u16_zero (M : JSMath) (ts : List Tri) :
    ∀ off o v le, WriteRec.u16 o v le ∈ recordsFrom M off ts → v = 0 ∧ le = true := by
  induction ts with
  | nil => intro off o v le hw; simp [recordsFrom] at hw
  | cons t ts ih =>
    intro off o v le hw
    rw [recordsFrom, List.mem_append] at hw
    rcases hw with hw | hw
    · simp only [recordWrites, List.mem_cons, List.mem_singleton, List.not_mem_nil,
        or_false] at hw
      rcases hw with h | h | h | h | h | h | h | h | h | h | h | h | h
      all_goals cases h
      exact ⟨rfl, rfl⟩
    · exact ih (off + 50) o v le hw

lemma recordsFrom_mem_of_get (M : JSMath) (ts : List Tri) :
    ∀ off k t, ts.get? k = some t →
      ∀ w ∈ recordWrites M (off + 50 * k) t, w ∈ recordsFrom M off ts := by
  induction ts with
  | nil => intro off k t ht; simp at ht
  | cons t0 ts ih =>
    intro off k t ht w hw
    rw [recordsFrom, List.mem_append]
    cases k with
    | zero =>
      left
      simp only [List.get?] at ht
      injection ht with ht
      subst ht
      simpa using hw
    | succ k =>
      right
      simp only [List.get?] at ht
      have : off + 50 * (k + 1) = (off + 50) + 50 * k := by ring
      rw [this] at hw
      exact ih (off + 50) k t ht w hw

/-- Claim C2: the output buffer has length exactly `84 + 50 N`; its
write sequence is 80 zero header bytes at offsets `[0,80)`, the triangle
count `N` as a little-endian unsigned 32-bit integer at offset 80, and
then one 50-byte record per triangle at offset `84 + 50 k` laid out as
12 bytes of normal, 36 bytes of vertices (all little-endian float32) and
a 2-byte attribute count that is always 0; no write below offset 80 is
anything but a zero byte. -/
theorem C2_buffer_layout (M : JSMath) (img : ImageData) (p : PanelParameters) :
    (generateSTL M img p).bufferSize = 84 + 50 * (generateSTL M img p).triangles.length
    ∧ (generateSTL M img p).writes
        = ((List.range 80).map fun k => WriteRec.u8 k 0)
          ++ [WriteRec.u32 80 (generateSTL M img p).triangles.length true]
          ++ recordsFrom M 84 (generateSTL M img p).triangles
    ∧ (∀ k, k < 80 → WriteRec.u8 k 0 ∈ (generateSTL M img p).writes)
    ∧ (∀ w ∈ (generateSTL M img p).writes, w.off < 80 → w = WriteRec.u8 w.off 0)
    ∧ (∀ o v le, WriteRec.u16 o v le ∈ (generateSTL M img p).writes → v = 0 ∧ le = true)
    ∧ (∀ k t, (generateSTL M img p).triangles.get? k = some t →
        ∀ w ∈ recordWrites M (84 + 50 * k) t, w ∈ (generateSTL M img p).writes) := by
  have hlen := length_buildMesh M p (min img.width img.height)
    (hmLookup (processImageToHeightMap img (min img.width img.height)))
  have htris : (generateSTL M img p).triangles
      = buildMesh M p (min img.width img.height)
          (hmLookup (processImageToHeightMap img (min img.width img.height))) := rfl
  have hw : (generateSTL M img p).writes
      = ((List.range 80).map fun k => WriteRec.u8 k 0)
        ++ [WriteRec.u32 80 (generateSTL M img p).triangles.length true]
        ++ recordsFrom M 84 (generateSTL M img p).triangles := by
    simp only [generateSTL, writeTriangles_fst]
    rw [hlen]
    rfl
  refine ⟨?_, hw, ?_, ?_, ?_, ?_⟩
  · simp only [generateSTL, htris, hlen]
    rw [numTriangles]
    ring
  · intro k hk
    rw [hw]
    simp only [List.mem_append, List.mem_map, List.mem_range]
    exact Or.inl (Or.inl ⟨k, hk, rfl⟩)
  · intro w hwmem hwoff
    rw [hw, List.mem_append, List.mem_append] at hwmem
    rcases hwmem with (hh | hc) | hr
    · simp only [List.mem_map, List.mem_range] at hh
      obtain ⟨k, _, rfl⟩ := hh
      rfl
    · simp only [List.mem_singleton] at hc
      subst hc
      simp [WriteRec.off] at hwoff
    · have := recordsFrom_off_le M _ 84 w hr
      omega
  · intro o v le hmem
    rw [hw, List.mem_append, List.mem_append] at hmem
    rcases hmem with (hh | hc) | hr
    · simp only [List.mem_map, List.mem_range] at hh
      obtain ⟨k, _, hk⟩ := hh
      cases hk
    · simp only [List.mem_singleton] at hc
      cases hc
    · exact recordsFrom_u16_zero M _ 84 o v le hr
  · intro k t ht w hwrec
    rw [hw, List.mem_append]
    exact Or.inr (recordsFrom_mem_of_get M _ 84 k t ht w hwrec)

/-! ### Shared concrete demo instances for witnesses -/

/-- A trivial `Math` oracle, usable wherever the claim does not depend on
trigonometric values. -/
def MDemo : JSMath := ⟨fun _ => 0, fun _ => 0, fun _ => 0, 0⟩

/-- A parameter set inside the documented ranges. -/
def pDemo : PanelParameters := ⟨3, 1/2, 100, 30, 5, 40, 1/2⟩

/-- A small height-map lookup with pairwise distinct in-range values. -/
def hmDemo : ℕ → ℕ → ℚ := fun i j => 10 * (i : ℚ) + (j : ℚ)

/-- A 2×3 image of constant byte value 7. -/
def img23 : ImageData := ⟨2, 3, fun _ => 7⟩

/-! ### Claim C7: height-field extraction -/

lemma getD_map_range {α : Type} (n : ℕ) (f : ℕ → α) (d : α) (i : ℕ) (hi : i < n) :
    ((List.range n).map f).getD i d = f i := by
  rw [List.getD_eq_getElem?_getD, List.getElem?_map, List.getElem?_range hi]
  rfl

lemma luminance_nonneg (img : ImageData) (x y : ℕ) : 0 ≤ luminance img x y := by
  unfold luminance
  positivity

lemma luminance_le_255 (img : ImageData) (x y : ℕ) (hdata : ∀ k, img.data k ≤ 255) :
    luminance img x y ≤ 255 := by
  unfold luminance
  have h1 : (img.data ((y * img.width + x) * 4) : ℚ) ≤ 255 := by exact_mod_cast hdata _
  have h2 : (img.data ((y * img.width + x) * 4 + 1) : ℚ) ≤ 255 := by exact_mod_cast hdata _
  have h3 : (img.data ((y * img.width + x) * 4 + 2) : ℚ) ≤ 255 := by exact_mod_cast hdata _
  linarith

/-- Claim C7: the height-field extraction, at the resolution
`min(width, height)` used by `generateSTL`, returns a
`resolution × resolution` grid whose cell `(i, j)` holds the luminance
`0.299 R + 0.587 G + 0.114 B` (a value in [0,255] for byte inputs) of
the single source pixel at `(⌊i·width/resolution⌋, ⌊j·height/resolution⌋)`,
with no interpolation. -/
theorem C7_height_field_extraction (img : ImageData) (i j : ℕ)
    (hi : i < min img.width img.height) (hj : j < min img.width img.height)
    (hdata : ∀ k, img.data k ≤ 255) :
    (processImageToHeightMap img (min img.width img.height)).length
        = min img.width img.height
    ∧ (∀ row ∈ processImageToHeightMap img (min img.width img.height),
        row.length = min img.width img.height)
    ∧ hmLookup (processImageToHeightMap img (min img.width img.height)) i j
        = luminance img
            (Int.floor ((i : ℚ) * img.width / (min img.width img.height : ℕ))).toNat
            (Int.floor ((j : ℚ) * img.height / (min img.width img.height : ℕ))).toNat
    ∧ 0 ≤ hmLookup (processImageToHeightMap img (min img.width img.height)) i j
    ∧ hmLookup (processImageToHeightMap img (min img.width img.height)) i j ≤ 255 := by
  have hentry : hmLookup (processImageToHeightMap img (min img.width img.height)) i j
      = luminance img
          (Int.floor ((i : ℚ) * img.width / (min img.width img.height : ℕ))).toNat
          (Int.floor ((j : ℚ) * img.height / (min img.width img.height : ℕ))).toNat := by
    simp only [hmLookup, processImageToHeightMap]
    rw [getD_map_range _ _ _ i hi, getD_map_range _ _ _ j hj]
    rw [← mul_div_assoc, ← mul_div_assoc]
  refine ⟨?_, ?_, hentry, ?_, ?_⟩
  · simp [processImageToHeightMap]
  · intro row hrowmem
    simp only [processImageToHeightMap, List.mem_map, List.mem_range] at hrowmem
    obtain ⟨i2, _, rfl⟩ := hrowmem
    simp
  · rw [hentry]
    exact luminance_nonneg img _ _
  · rw [hentry]
    exact luminance_le_255 img _ _ hdata

/-- Concrete witness for `C7_height_field_extraction` on `img23`. -/
theorem C7_height_field_extraction_witness :
    (1 < min img23.width img23.height ∧ 0 < min img23.width img23.height
      ∧ (∀ k, img23.data k ≤ 255))
    ∧ ((processImageToHeightMap img23 (min img23.width img23.height)).length
          = min img23.width img23.height
      ∧ (∀ row ∈ processImageToHeightMap img23 (min img23.width img23.height),
          row.length = min img23.width img23.height)
      ∧ hmLookup (processImageToHeightMap img23 (min img23.width img23.height)) 1 0
          = luminance img23
              (Int.floor ((1 : ℚ) * img23.width / (min img23.width img23.height : ℕ))).toNat
              (Int.floor ((0 : ℚ) * img23.height / (min img23.width img23.height : ℕ))).toNat
      ∧ 0 ≤ hmLookup (processImageToHeightMap img23 (min img23.width img23.height)) 1 0
      ∧ hmLookup (processImageToHeightMap img23 (min img23.width img23.height)) 1 0 ≤ 255) :=
  ⟨⟨by decide, by decide, fun k => by norm_num [img23]⟩,
   C7_height_field_extraction img23 1 0 (by decide) (by decide) (fun k => by norm_num [img23])⟩

/-! ### Claim C8: radial wrap of the outermost ring -/

/-- Claim C8: for a cell on the outermost ring `i = R - 1` (with `R ≥ 2`),
the outer-corner heights `h3` and `h4` are read from height-map row
`(i+1) % R = 0`, and they are the z-coordinates used both by the top
surface triangles (list positions 0 and 1) and by the outer wall
triangles (list positions 4 and 5) of that cell. -/
theorem C8_outer_ring_wrap (M : JSMath) (p : PanelParameters) (R : ℕ)
    (hm : ℕ → ℕ → ℚ) (j : ℕ) (hR : 2 ≤ R) :
    (R - 1 + 1) % R = 0
    ∧ ((cellTriangles M p R hm (R - 1) j).get? 0).map (fun t => t.v2.z)
        = some (mapHeightFromGrayscale (hm 0 j) p.minHeight p.maxHeight)
    ∧ ((cellTriangles M p R hm (R - 1) j).get? 1).map (fun t => t.v2.z)
        = some (mapHeightFromGrayscale (hm 0 j) p.minHeight p.maxHeight)
    ∧ ((cellTriangles M p R hm (R - 1) j).get? 1).map (fun t => t.v3.z)
        = some (mapHeightFromGrayscale (hm 0 ((j + 1) % R)) p.minHeight p.maxHeight)
    ∧ ((cellTriangles M p R hm (R - 1) j).get? 4).map (fun t => t.v3.z)
        = some (mapHeightFromGrayscale (hm 0 j) p.minHeight p.maxHeight)
    ∧ ((cellTriangles M p R hm (R - 1) j).get? 4).map (fun t => t.v2.z)
        = some (mapHeightFromGrayscale (hm 0 ((j + 1) % R)) p.minHeight p.maxHeight)
    ∧ ((cellTriangles M p R hm (R - 1) j).get? 5).map (fun t => t.v3.z)
        = some (mapHeightFromGrayscale (hm 0 ((j + 1) % R)) p.minHeight p.maxHeight) := by
  have hRR : R - 1 + 1 = R := by omega
  have e1 : (R - 1 + 1) % R = 0 := by rw [hRR, Nat.mod_self]
  have hne : ¬ (R - 1 = 0) := by omega
  refine ⟨e1, ?_, ?_, ?_, ?_, ?_, ?_⟩
  all_goals
    simp only [cellTriangles, e1, if_neg hne, if_pos rfl, List.nil_append,
      List.cons_append]
  all_goals rfl

/-- Concrete witness for `C8_outer_ring_wrap` at `R = 3`, `j = 1`. -/
theorem C8_outer_ring_wrap_witness :
    2 ≤ 3
    ∧ ((3 - 1 + 1) % 3 = 0
      ∧ ((cellTriangles MDemo pDemo 3 hmDemo (3 - 1) 1).get? 0).map (fun t : Tri => t.v2.z)
          = some (mapHeightFromGrayscale (hmDemo 0 1) pDemo.minHeight pDemo.maxHeight)
      ∧ ((cellTriangles MDemo pDemo 3 hmDemo (3 - 1) 1).get? 1).map (fun t : Tri => t.v2.z)
          = some (mapHeightFromGrayscale (hmDemo 0 1) pDemo.minHeight pDemo.maxHeight)
      ∧ ((cellTriangles MDemo pDemo 3 hmDemo (3 - 1) 1).get? 1).map (fun t : Tri => t.v3.z)
          = some (mapHeightFromGrayscale (hmDemo 0 ((1 + 1) % 3)) pDemo.minHeight pDemo.maxHeight)
      ∧ ((cellTriangles MDemo pDemo 3 hmDemo (3 - 1) 1).get? 4).map (fun t : Tri => t.v3.z)
          = some (mapHeightFromGrayscale (hmDemo 0 1) pDemo.minHeight pDemo.maxHeight)
      ∧ ((cellTriangles MDemo pDemo 3 hmDemo (3 - 1) 1).get? 4).map (fun t : Tri => t.v2.z)
          = some (mapHeightFromGrayscale (hmDemo 0 ((1 + 1) % 3)) pDemo.minHeight pDemo.maxHeight)
      ∧ ((cellTriangles MDemo pDemo 3 hmDemo (3 - 1) 1).get? 5).map (fun t : Tri => t.v3.z)
          = some (mapHeightFromGrayscale (hmDemo 0 ((1 + 1) % 3)) pDemo.minHeight pDemo.maxHeight)) :=
  ⟨by decide, C8_outer_ring_wrap MDemo pDemo 3 hmDemo 1 (by decide)⟩

/-! ### Claims C5, C6: absence of validation in the source -/

/-- Claim C5 concerns parameter validation.  The source contains no
check of the documented invariants: with `innerDiameter = 60` and
`outerDiameter = 50` (scenario 3 of the spec), `generateSTL` does not
fail — it allocates the full `84 + 50·16 = 884`-byte buffer for a 1×1
image, emits all 16 triangles and writes the count field, for every
`Math` oracle. -/
theorem C5_no_parameter_validation (M : JSMath) :
    (generateSTL M ⟨1, 1, fun _ => 0⟩ ⟨3, 1/2, 50, 60, 5, 40, 1/2⟩).bufferSize = 884
    ∧ (generateSTL M ⟨1, 1, fun _ => 0⟩ ⟨3, 1/2, 50, 60, 5, 40, 1/2⟩).triangles.length = 16
    ∧ WriteRec.u32 80 16 true
        ∈ (generateSTL M ⟨1, 1, fun _ => 0⟩ ⟨3, 1/2, 50, 60, 5, 40, 1/2⟩).writes := by
  refine ⟨rfl, ?_, ?_⟩
  · simp only [generateSTL]
    exact (length_buildMesh M ⟨3, 1/2, 50, 60, 5, 40, 1/2⟩ (min 1 1) _).trans rfl
  · simp only [generateSTL, List.mem_append, List.mem_singleton]
    exact Or.inl (Or.inr rfl)

/-- Claim C6 concerns image validation.  The source contains no check
for zero-dimension images: for a 0×5 pixel buffer the resolution is 0
and `generateSTL` does not fail — it returns an 84-byte output with a
zero triangle count, for every oracle and every parameter set. -/
theorem C6_no_image_validation (M : JSMath) (p : PanelParameters) :
    (generateSTL M ⟨0, 5, fun _ => 0⟩ p).bufferSize = 84
    ∧ (generateSTL M ⟨0, 5, fun _ => 0⟩ p).triangles = []
    ∧ (generateSTL M ⟨0, 5, fun _ => 0⟩ p).writes
        = ((List.range 80).map fun k => WriteRec.u8 k 0) ++ [WriteRec.u32 80 0 true] := by
  exact ⟨rfl, rfl, rfl⟩

/-! ### Claim C4: degenerate triangles produce undefined normals -/

/-- Claim C4 asserts a degenerate-triangle policy that the source does
not have.  For an all-white 1×1 image the mapped height equals
`minHeight`, so the first inner-wall triangle (index 4 of the emitted
sequence) has two identical vertices: its cross product is the zero
vector for every oracle and every parameter set.  `calculateNormal`
still divides each component by the length unconditionally
(in JavaScript `0/0` is `NaN`, `Math.sqrt(0) = 0`), so a NaN normal is
serialized rather than the triangle being skipped or given a sentinel. -/
theorem C4_degenerate_normal_unguarded (M : JSMath) (p : PanelParameters) :
    ((generateSTL M ⟨1, 1, fun _ => 255⟩ p).triangles.get? 4).map crossProduct
      = some ⟨0, 0, 0⟩
    ∧ ((generateSTL M ⟨1, 1, fun _ => 255⟩ p).triangles.get? 4).map (fun t => t.v1.z - t.v2.z)
      = some 0 := by
  constructor
  · show some (crossProduct _) = some ⟨0, 0, 0⟩
    norm_num [crossProduct, mapHeightFromGrayscale, hmLookup, processImageToHeightMap,
      luminance, Vec3.mk.injEq]
  · show some _ = some (0 : ℚ)
    norm_num [mapHeightFromGrayscale, hmLookup, processImageToHeightMap, luminance]

/-! ### Claim C9: support-stand geometry -/

/-- Claim C9, the part of it the code satisfies, and the geometry the
source actually builds: the vertical face of the support wall (positions 4 and 5 of each
`supportTriangles` block) lies at the single radius `wallDistance` —
every vertex is `wallDistance · (cos θ, sin θ)` — and spans from
`z = minHeight` down to `z = -wallHeight`.  Moreover the whole STL
output is invariant under the `wallThickness` parameter: the mesh
generator never reads it, so the wall has no radial thickness. -/
theorem C9_support_wall_zero_thickness (M : JSMath) (p : PanelParameters) (R j : ℕ)
    (img : ImageData) (t : ℚ) :
    (supportTriangles M p R j).get? 4
      = some (Tri.mk
          (Vec3.mk (p.wallDistance * M.cos (((j : ℚ) / (R : ℚ)) * M.pi * 2))
                   (p.wallDistance * M.sin (((j : ℚ) / (R : ℚ)) * M.pi * 2)) p.minHeight)
          (Vec3.mk (p.wallDistance * M.cos ((((j : ℚ) + 1) / (R : ℚ)) * M.pi * 2))
                   (p.wallDistance * M.sin ((((j : ℚ) + 1) / (R : ℚ)) * M.pi * 2)) p.minHeight)
          (Vec3.mk (p.wallDistance * M.cos (((j : ℚ) / (R : ℚ)) * M.pi * 2))
                   (p.wallDistance * M.sin (((j : ℚ) / (R : ℚ)) * M.pi * 2)) (-p.wallHeight)))
    ∧ (supportTriangles M p R j).get? 5
      = some (Tri.mk
          (Vec3.mk (p.wallDistance * M.cos ((((j : ℚ) + 1) / (R : ℚ)) * M.pi * 2))
                   (p.wallDistance * M.sin ((((j : ℚ) + 1) / (R : ℚ)) * M.pi * 2)) p.minHeight)
          (Vec3.mk (p.wallDistance * M.cos ((((j : ℚ) + 1) / (R : ℚ)) * M.pi * 2))
                   (p.wallDistance * M.sin ((((j : ℚ) + 1) / (R : ℚ)) * M.pi * 2)) (-p.wallHeight))
          (Vec3.mk (p.wallDistance * M.cos (((j : ℚ) / (R : ℚ)) * M.pi * 2))
                   (p.wallDistance * M.sin (((j : ℚ) / (R : ℚ)) * M.pi * 2)) (-p.wallHeight)))
    ∧ generateSTL M img { p with wallThickness := t } = generateSTL M img p :=
  ⟨rfl, rfl, rfl⟩

/-- Math oracle for the C9 instance: exact values of cosine and sine
at the three angles `0`, `3`, `6` that the code queries when
`resolution = 2` and `pi = 3`, chosen on the unit circle
(`cos² + sin² = 1`) and `2π`-periodic (`θ = 6` equals `θ = 0`). -/
def M9 : JSMath :=
  ⟨fun q => if q = 3 then -3/5 else 1, fun q => if q = 3 then 4/5 else 0, fun _ => 0, 3⟩

/-- A 2×2 image of constant byte value 100 for the C9 instance. -/
def img9 : ImageData := ⟨2, 2, fun _ => 100⟩

/-- Valid parameters for the C9 instance: `wallDistance = 25`,
`wallThickness = 1/2`, `outerDiameter/2 = 35`. -/
def p9 : PanelParameters := ⟨1020, 0, 70, 30, 5, 25, 1/2⟩

def mesh9L : List Tri :=
  [Tri.mk (Vec3.mk 15 0 620) (Vec3.mk 25 0 620) (Vec3.mk (-9 : ℚ) 12 620),
   Tri.mk (Vec3.mk (-9 : ℚ) 12 620) (Vec3.mk 25 0 620) (Vec3.mk (-15 : ℚ) 20 620),
   Tri.mk (Vec3.mk 15 0 0) (Vec3.mk (-9 : ℚ) 12 0) (Vec3.mk 25 0 0),
   Tri.mk (Vec3.mk (-9 : ℚ) 12 0) (Vec3.mk (-15 : ℚ) 20 0) (Vec3.mk 25 0 0),
   Tri.mk (Vec3.mk 15 0 0) (Vec3.mk 15 0 620) (Vec3.mk (-9 : ℚ) 12 620),
   Tri.mk (Vec3.mk 15 0 0) (Vec3.mk (-9 : ℚ) 12 620) (Vec3.mk (-9 : ℚ) 12 0),
   Tri.mk (Vec3.mk (-9 : ℚ) 12 620) (Vec3.mk (-15 : ℚ) 20 620) (Vec3.mk 15 0 620),
   Tri.mk (Vec3.mk 15 0 620) (Vec3.mk (-15 : ℚ) 20 620) (Vec3.mk 25 0 620),
   Tri.mk (Vec3.mk (-9 : ℚ) 12 0) (Vec3.mk 15 0 0) (Vec3.mk (-15 : ℚ) 20 0),
   Tri.mk (Vec3.mk 15 0 0) (Vec3.mk 25 0 0) (Vec3.mk (-15 : ℚ) 20 0),
   Tri.mk (Vec3.mk (-9 : ℚ) 12 0) (Vec3.mk (-9 : ℚ) 12 620) (Vec3.mk 15 0 620),
   Tri.mk (Vec3.mk (-9 : ℚ) 12 0) (Vec3.mk 15 0 620) (Vec3.mk 15 0 0),
   Tri.mk (Vec3.mk 25 0 620) (Vec3.mk 35 0 620) (Vec3.mk (-15 : ℚ) 20 620),
   Tri.mk (Vec3.mk (-15 : ℚ) 20 620) (Vec3.mk 35 0 620) (Vec3.mk (-21 : ℚ) 28 620),
   Tri.mk (Vec3.mk 25 0 0) (Vec3.mk (-15 : ℚ) 20 0) (Vec3.mk 35 0 0),
   Tri.mk (Vec3.mk (-15 : ℚ) 20 0) (Vec3.mk (-21 : ℚ) 28 0) (Vec3.mk 35 0 0),
   Tri.mk (Vec3.mk 35 0 0) (Vec3.mk (-21 : ℚ) 28 620) (Vec3.mk 35 0 620),
   Tri.mk (Vec3.mk 35 0 0) (Vec3.mk (-21 : ℚ) 28 0) (Vec3.mk (-21 : ℚ) 28 620),
   Tri.mk (Vec3.mk (-15 : ℚ) 20 620) (Vec3.mk (-21 : ℚ) 28 620) (Vec3.mk 25 0 620),
   Tri.mk (Vec3.mk 25 0 620) (Vec3.mk (-21 : ℚ) 28 620) (Vec3.mk 35 0 620),
   Tri.mk (Vec3.mk (-15 : ℚ) 20 0) (Vec3.mk 25 0 0) (Vec3.mk (-21 : ℚ) 28 0),
   Tri.mk (Vec3.mk 25 0 0) (Vec3.mk 35 0 0) (Vec3.mk (-21 : ℚ) 28 0),
   Tri.mk (Vec3.mk (-21 : ℚ) 28 0) (Vec3.mk 35 0 620) (Vec3.mk (-21 : ℚ) 28 620),
   Tri.mk (Vec3.mk (-21 : ℚ) 28 0) (Vec3.mk 35 0 0) (Vec3.mk 35 0 620),
   Tri.mk (Vec3.mk 35 0 0) (Vec3.mk (-21 : ℚ) 28 0) (Vec3.mk 25 0 0),
   Tri.mk (Vec3.mk 25 0 0) (Vec3.mk (-21 : ℚ) 28 0) (Vec3.mk (-15 : ℚ) 20 0),
   Tri.mk (Vec3.mk 35 0 0) (Vec3.mk 35 0 (-5 : ℚ)) (Vec3.mk (-21 : ℚ) 28 0),
   Tri.mk (Vec3.mk (-21 : ℚ) 28 0) (Vec3.mk 35 0 (-5 : ℚ)) (Vec3.mk (-21 : ℚ) 28 (-5 : ℚ)),
   Tri.mk (Vec3.mk 25 0 0) (Vec3.mk (-15 : ℚ) 20 0) (Vec3.mk 25 0 (-5 : ℚ)),
   Tri.mk (Vec3.mk (-15 : ℚ) 20 0) (Vec3.mk (-15 : ℚ) 20 (-5 : ℚ)) (Vec3.mk 25 0 (-5 : ℚ)),
   Tri.mk (Vec3.mk 35 0 (-5 : ℚ)) (Vec3.mk 25 0 (-5 : ℚ)) (Vec3.mk (-21 : ℚ) 28 (-5 : ℚ)),
   Tri.mk (Vec3.mk 25 0 (-5 : ℚ)) (Vec3.mk (-15 : ℚ) 20 (-5 : ℚ)) (Vec3.mk (-21 : ℚ) 28 (-5 : ℚ)),
   Tri.mk (Vec3.mk (-21 : ℚ) 28 0) (Vec3.mk 35 0 0) (Vec3.mk (-15 : ℚ) 20 0),
   Tri.mk (Vec3.mk (-15 : ℚ) 20 0) (Vec3.mk 35 0 0) (Vec3.mk 25 0 0),
   Tri.mk (Vec3.mk (-21 : ℚ) 28 0) (Vec3.mk (-21 : ℚ) 28 (-5 : ℚ)) (Vec3.mk 35 0 0),
   Tri.mk (Vec3.mk 35 0 0) (Vec3.mk (-21 : ℚ) 28 (-5 : ℚ)) (Vec3.mk 35 0 (-5 : ℚ)),
   Tri.mk (Vec3.mk (-15 : ℚ) 20 0) (Vec3.mk 25 0 0) (Vec3.mk (-15 : ℚ) 20 (-5 : ℚ)),
   Tri.mk (Vec3.mk 25 0 0) (Vec3.mk 25 0 (-5 : ℚ)) (Vec3.mk (-15 : ℚ) 20 (-5 : ℚ)),
   Tri.mk (Vec3.mk (-21 : ℚ) 28 (-5 : ℚ)) (Vec3.mk (-15 : ℚ) 20 (-5 : ℚ)) (Vec3.mk 35 0 (-5 : ℚ)),
   Tri.mk (Vec3.mk (-15 : ℚ) 20 (-5 : ℚ)) (Vec3.mk 25 0 (-5 : ℚ)) (Vec3.mk 35 0 (-5 : ℚ))]

lemma hr2 : List.range 2 = [0, 1] := rfl

set_option maxHeartbeats 2000000 in
lemma hmesh9 : (generateSTL M9 img9 p9).triangles = mesh9L := by
  norm_num [generateSTL, buildMesh, cellTriangles, supportTriangles, hmLookup,
    processImageToHeightMap, luminance, mapHeightFromGrayscale, M9, p9, img9, hr2, mesh9L,
    List.flatMap_cons, List.flatMap_nil, getD_map_range]

/-- Claim C9, as stated, is false: in the mesh of the C9 instance the
vertical-face triangles of the support wall (global positions 28, 29, 36, 37
for resolution 2) have every vertex at squared distance
`wallDistance² = 625` from the axis — a single radius, not two radii
differing by `wallThickness = 0.5` (whose squares `25.5²`, `24.5²`
differ from `625`).  Their z-coordinates are exactly `minHeight` and
`-wallHeight`. -/
theorem C9_two_radii_counterexample :
    (generateSTL M9 img9 p9).triangles.get? 28
      = some (Tri.mk (Vec3.mk 25 0 0) (Vec3.mk (-15) 20 0) (Vec3.mk 25 0 (-5)))
    ∧ (generateSTL M9 img9 p9).triangles.get? 29
      = some (Tri.mk (Vec3.mk (-15) 20 0) (Vec3.mk (-15) 20 (-5)) (Vec3.mk 25 0 (-5)))
    ∧ (generateSTL M9 img9 p9).triangles.get? 36
      = some (Tri.mk (Vec3.mk (-15) 20 0) (Vec3.mk 25 0 0) (Vec3.mk (-15) 20 (-5)))
    ∧ (generateSTL M9 img9 p9).triangles.get? 37
      = some (Tri.mk (Vec3.mk 25 0 0) (Vec3.mk 25 0 (-5)) (Vec3.mk (-15) 20 (-5)))
    ∧ (∀ v ∈ [Vec3.mk 25 0 0, Vec3.mk (-15) 20 0, Vec3.mk 25 0 (-5), Vec3.mk (-15) 20 (-5)],
        v.x ^ 2 + v.y ^ 2 = p9.wallDistance ^ 2
        ∧ (v.z = p9.minHeight ∨ v.z = -p9.wallHeight))
    ∧ (p9.wallDistance + p9.wallThickness) ^ 2 ≠ p9.wallDistance ^ 2
    ∧ (p9.wallDistance - p9.wallThickness) ^ 2 ≠ p9.wallDistance ^ 2 := by
  refine ⟨?_, ?_, ?_, ?_, ?_, by norm_num [p9], by norm_num [p9]⟩
  · rw [hmesh9]
    rfl
  · rw [hmesh9]
    rfl
  · rw [hmesh9]
    rfl
  · rw [hmesh9]
    rfl
  · intro v hv
    fin_cases hv <;> norm_num [p9]

/-! ### Claim C10: edge-sharing census -/

/-- The three directed edges of a triangle. -/
def triEdges (t : Tri) : List (Vec3 × Vec3) := [(t.v1, t.v2), (t.v2, t.v3), (t.v3, t.v1)]

/-- All directed edge slots of a mesh, three per triangle. -/
def allEdges (ts : List Tri) : List (Vec3 × Vec3) := ts.flatMap triEdges

/-- Equality of edges as unordered pairs of vertex positions. -/
def sameEdge (e f : Vec3 × Vec3) : Bool :=
  decide (e = f) || (decide (e.1 = f.2) && decide (e.2 = f.1))

/-- How many triangle edge slots of `ts` carry the unordered edge `e`. -/
def edgeCount (ts : List Tri) (e : Vec3 × Vec3) : ℕ :=
  (allEdges ts).countP (sameEdge e)

/-- Census check: every edge of the mesh is shared by exactly two
triangles, except the edges of `exc`, shared by exactly four. -/
def censusOK (ts : List Tri) (exc : List (Vec3 × Vec3)) : Bool :=
  (allEdges ts).all fun e =>
    if exc.any (sameEdge e) then edgeCount ts e = 4 else edgeCount ts e = 2

/-- Math oracle for the C10 instance: injective rational stand-ins for
cosine and sine at the four angles `0`, `2`, `4`, `6` queried when
`resolution = 3` and `pi = 3`, `2π`-periodic (`θ = 6` equals `θ = 0`)
so that the angular seam closes as in exact trigonometry. -/
def M10 : JSMath :=
  ⟨fun q => if q = 0 then 2 else if q = 2 then -1 else if q = 4 then -2 else if q = 6 then 2 else 0,
   fun q => if q = 0 then 1 else if q = 2 then 5 else if q = 4 then -3 else if q = 6 then 1 else 0,
   fun _ => 0, 3⟩

/-- A 3×3 image with nine distinct pixel luminances for the C10 instance. -/
def img10 : ImageData := ⟨3, 3, fun k => 10 * (k / 4 + 1)⟩

/-- Valid parameters for the C10 instance, chosen so that every mesh
coordinate is an integer. -/
def p10 : PanelParameters := ⟨1020, 0, 66, 30, 5, 24, 1/2⟩

def mesh10L : List Tri :=
  [Tri.mk (Vec3.mk 30 15 980) (Vec3.mk 42 21 940) (Vec3.mk (-15 : ℚ) 75 860),
   Tri.mk (Vec3.mk (-15 : ℚ) 75 860) (Vec3.mk 42 21 940) (Vec3.mk (-21 : ℚ) 105 820),
   Tri.mk (Vec3.mk 30 15 0) (Vec3.mk (-15 : ℚ) 75 0) (Vec3.mk 42 21 0),
   Tri.mk (Vec3.mk (-15 : ℚ) 75 0) (Vec3.mk (-21 : ℚ) 105 0) (Vec3.mk 42 21 0),
   Tri.mk (Vec3.mk 30 15 0) (Vec3.mk 30 15 980) (Vec3.mk (-15 : ℚ) 75 860),
   Tri.mk (Vec3.mk 30 15 0) (Vec3.mk (-15 : ℚ) 75 860) (Vec3.mk (-15 : ℚ) 75 0),
   Tri.mk (Vec3.mk (-15 : ℚ) 75 860) (Vec3.mk (-21 : ℚ) 105 820) (Vec3.mk (-30 : ℚ) (-45 : ℚ) 740),
   Tri.mk (Vec3.mk (-30 : ℚ) (-45 : ℚ) 740) (Vec3.mk (-21 : ℚ) 105 820) (Vec3.mk (-42 : ℚ) (-63 : ℚ) 700),
   Tri.mk (Vec3.mk (-15 : ℚ) 75 0) (Vec3.mk (-30 : ℚ) (-45 : ℚ) 0) (Vec3.mk (-21 : ℚ) 105 0),
   Tri.mk (Vec3.mk (-30 : ℚ) (-45 : ℚ) 0) (Vec3.mk (-42 : ℚ) (-63 : ℚ) 0) (Vec3.mk (-21 : ℚ) 105 0),
   Tri.mk (Vec3.mk (-15 : ℚ) 75 0) (Vec3.mk (-15 : ℚ) 75 860) (Vec3.mk (-30 : ℚ) (-45 : ℚ) 740),
   Tri.mk (Vec3.mk (-15 : ℚ) 75 0) (Vec3.mk (-30 : ℚ) (-45 : ℚ) 740) (Vec3.mk (-30 : ℚ) (-45 : ℚ) 0),
   Tri.mk (Vec3.mk (-30 : ℚ) (-45 : ℚ) 740) (Vec3.mk (-42 : ℚ) (-63 : ℚ) 700) (Vec3.mk 30 15 980),
   Tri.mk (Vec3.mk 30 15 980) (Vec3.mk (-42 : ℚ) (-63 : ℚ) 700) (Vec3.mk 42 21 940),
   Tri.mk (Vec3.mk (-30 : ℚ) (-45 : ℚ) 0) (Vec3.mk 30 15 0) (Vec3.mk (-42 : ℚ) (-63 : ℚ) 0),
   Tri.mk (Vec3.mk 30 15 0) (Vec3.mk 42 21 0) (Vec3.mk (-42 : ℚ) (-63 : ℚ) 0),
   Tri.mk (Vec3.mk (-30 : ℚ) (-45 : ℚ) 0) (Vec3.mk (-30 : ℚ) (-45 : ℚ) 740) (Vec3.mk 30 15 980),
   Tri.mk (Vec3.mk (-30 : ℚ) (-45 : ℚ) 0) (Vec3.mk 30 15 980) (Vec3.mk 30 15 0),
   Tri.mk (Vec3.mk 42 21 940) (Vec3.mk 54 27 900) (Vec3.mk (-21 : ℚ) 105 820),
   Tri.mk (Vec3.mk (-21 : ℚ) 105 820) (Vec3.mk 54 27 900) (Vec3.mk (-27 : ℚ) 135 780),
   Tri.mk (Vec3.mk 42 21 0) (Vec3.mk (-21 : ℚ) 105 0) (Vec3.mk 54 27 0),
   Tri.mk (Vec3.mk (-21 : ℚ) 105 0) (Vec3.mk (-27 : ℚ) 135 0) (Vec3.mk 54 27 0),
   Tri.mk (Vec3.mk (-21 : ℚ) 105 820) (Vec3.mk (-27 : ℚ) 135 780) (Vec3.mk (-42 : ℚ) (-63 : ℚ) 700),
   Tri.mk (Vec3.mk (-42 : ℚ) (-63 : ℚ) 700) (Vec3.mk (-27 : ℚ) 135 780) (Vec3.mk (-54 : ℚ) (-81 : ℚ) 660),
   Tri.mk (Vec3.mk (-21 : ℚ) 105 0) (Vec3.mk (-42 : ℚ) (-63 : ℚ) 0) (Vec3.mk (-27 : ℚ) 135 0),
   Tri.mk (Vec3.mk (-42 : ℚ) (-63 : ℚ) 0) (Vec3.mk (-54 : ℚ) (-81 : ℚ) 0) (Vec3.mk (-27 : ℚ) 135 0),
   Tri.mk (Vec3.mk (-42 : ℚ) (-63 : ℚ) 700) (Vec3.mk (-54 : ℚ) (-81 : ℚ) 660) (Vec3.mk 42 21 940),
   Tri.mk (Vec3.mk 42 21 940) (Vec3.mk (-54 : ℚ) (-81 : ℚ) 660) (Vec3.mk 54 27 900),
   Tri.mk (Vec3.mk (-42 : ℚ) (-63 : ℚ) 0) (Vec3.mk 42 21 0) (Vec3.mk (-54 : ℚ) (-81 : ℚ) 0),
   Tri.mk (Vec3.mk 42 21 0) (Vec3.mk 54 27 0) (Vec3.mk (-54 : ℚ) (-81 : ℚ) 0),
   Tri.mk (Vec3.mk 54 27 900) (Vec3.mk 66 33 980) (Vec3.mk (-27 : ℚ) 135 780),
   Tri.mk (Vec3.mk (-27 : ℚ) 135 780) (Vec3.mk 66 33 980) (Vec3.mk (-33 : ℚ) 165 860),
   Tri.mk (Vec3.mk 54 27 0) (Vec3.mk (-27 : ℚ) 135 0) (Vec3.mk 66 33 0),
   Tri.mk (Vec3.mk (-27 : ℚ) 135 0) (Vec3.mk (-33 : ℚ) 165 0) (Vec3.mk 66 33 0),
   Tri.mk (Vec3.mk 66 33 0) (Vec3.mk (-33 : ℚ) 165 860) (Vec3.mk 66 33 980),
   Tri.mk (Vec3.mk 66 33 0) (Vec3.mk (-33 : ℚ) 165 0) (Vec3.mk (-33 : ℚ) 165 860),
   Tri.mk (Vec3.mk (-27 : ℚ) 135 780) (Vec3.mk (-33 : ℚ) 165 860) (Vec3.mk (-54 : ℚ) (-81 : ℚ) 660),
   Tri.mk (Vec3.mk (-54 : ℚ) (-81 : ℚ) 660) (Vec3.mk (-33 : ℚ) 165 860) (Vec3.mk (-66 : ℚ) (-99 : ℚ) 740),
   Tri.mk (Vec3.mk (-27 : ℚ) 135 0) (Vec3.mk (-54 : ℚ) (-81 : ℚ) 0) (Vec3.mk (-33 : ℚ) 165 0),
   Tri.mk (Vec3.mk (-54 : ℚ) (-81 : ℚ) 0) (Vec3.mk (-66 : ℚ) (-99 : ℚ) 0) (Vec3.mk (-33 : ℚ) 165 0),
   Tri.mk (Vec3.mk (-33 : ℚ) 165 0) (Vec3.mk (-66 : ℚ) (-99 : ℚ) 740) (Vec3.mk (-33 : ℚ) 165 860),
   Tri.mk (Vec3.mk (-33 : ℚ) 165 0) (Vec3.mk (-66 : ℚ) (-99 : ℚ) 0) (Vec3.mk (-66 : ℚ) (-99 : ℚ) 740),
   Tri.mk (Vec3.mk (-54 : ℚ) (-81 : ℚ) 660) (Vec3.mk (-66 : ℚ) (-99 : ℚ) 740) (Vec3.mk 54 27 900),
   Tri.mk (Vec3.mk 54 27 900) (Vec3.mk (-66 : ℚ) (-99 : ℚ) 740) (Vec3.mk 66 33 980),
   Tri.mk (Vec3.mk (-54 : ℚ) (-81 : ℚ) 0) (Vec3.mk 54 27 0) (Vec3.mk (-66 : ℚ) (-99 : ℚ) 0),
   Tri.mk (Vec3.mk 54 27 0) (Vec3.mk 66 33 0) (Vec3.mk (-66 : ℚ) (-99 : ℚ) 0),
   Tri.mk (Vec3.mk (-66 : ℚ) (-99 : ℚ) 0) (Vec3.mk 66 33 980) (Vec3.mk (-66 : ℚ) (-99 : ℚ) 740),
   Tri.mk (Vec3.mk (-66 : ℚ) (-99 : ℚ) 0) (Vec3.mk 66 33 0) (Vec3.mk 66 33 980),
   Tri.mk (Vec3.mk 66 33 0) (Vec3.mk (-33 : ℚ) 165 0) (Vec3.mk 48 24 0),
   Tri.mk (Vec3.mk 48 24 0) (Vec3.mk (-33 : ℚ) 165 0) (Vec3.mk (-24 : ℚ) 120 0),
   Tri.mk (Vec3.mk 66 33 0) (Vec3.mk 66 33 (-5 : ℚ)) (Vec3.mk (-33 : ℚ) 165 0),
   Tri.mk (Vec3.mk (-33 : ℚ) 165 0) (Vec3.mk 66 33 (-5 : ℚ)) (Vec3.mk (-33 : ℚ) 165 (-5 : ℚ)),
   Tri.mk (Vec3.mk 48 24 0) (Vec3.mk (-24 : ℚ) 120 0) (Vec3.mk 48 24 (-5 : ℚ)),
   Tri.mk (Vec3.mk (-24 : ℚ) 120 0) (Vec3.mk (-24 : ℚ) 120 (-5 : ℚ)) (Vec3.mk 48 24 (-5 : ℚ)),
   Tri.mk (Vec3.mk 66 33 (-5 : ℚ)) (Vec3.mk 48 24 (-5 : ℚ)) (Vec3.mk (-33 : ℚ) 165 (-5 : ℚ)),
   Tri.mk (Vec3.mk 48 24 (-5 : ℚ)) (Vec3.mk (-24 : ℚ) 120 (-5 : ℚ)) (Vec3.mk (-33 : ℚ) 165 (-5 : ℚ)),
   Tri.mk (Vec3.mk (-33 : ℚ) 165 0) (Vec3.mk (-66 : ℚ) (-99 : ℚ) 0) (Vec3.mk (-24 : ℚ) 120 0),
   Tri.mk (Vec3.mk (-24 : ℚ) 120 0) (Vec3.mk (-66 : ℚ) (-99 : ℚ) 0) (Vec3.mk (-48 : ℚ) (-72 : ℚ) 0),
   Tri.mk (Vec3.mk (-33 : ℚ) 165 0) (Vec3.mk (-33 : ℚ) 165 (-5 : ℚ)) (Vec3.mk (-66 : ℚ) (-99 : ℚ) 0),
   Tri.mk (Vec3.mk (-66 : ℚ) (-99 : ℚ) 0) (Vec3.mk (-33 : ℚ) 165 (-5 : ℚ)) (Vec3.mk (-66 : ℚ) (-99 : ℚ) (-5 : ℚ)),
   Tri.mk (Vec3.mk (-24 : ℚ) 120 0) (Vec3.mk (-48 : ℚ) (-72 : ℚ) 0) (Vec3.mk (-24 : ℚ) 120 (-5 : ℚ)),
   Tri.mk (Vec3.mk (-48 : ℚ) (-72 : ℚ) 0) (Vec3.mk (-48 : ℚ) (-72 : ℚ) (-5 : ℚ)) (Vec3.mk (-24 : ℚ) 120 (-5 : ℚ)),
   Tri.mk (Vec3.mk (-33 : ℚ) 165 (-5 : ℚ)) (Vec3.mk (-24 : ℚ) 120 (-5 : ℚ)) (Vec3.mk (-66 : ℚ) (-99 : ℚ) (-5 : ℚ)),
   Tri.mk (Vec3.mk (-24 : ℚ) 120 (-5 : ℚ)) (Vec3.mk (-48 : ℚ) (-72 : ℚ) (-5 : ℚ)) (Vec3.mk (-66 : ℚ) (-99 : ℚ) (-5 : ℚ)),
   Tri.mk (Vec3.mk (-66 : ℚ) (-99 : ℚ) 0) (Vec3.mk 66 33 0) (Vec3.mk (-48 : ℚ) (-72 : ℚ) 0),
   Tri.mk (Vec3.mk (-48 : ℚ) (-72 : ℚ) 0) (Vec3.mk 66 33 0) (Vec3.mk 48 24 0),
   Tri.mk (Vec3.mk (-66 : ℚ) (-99 : ℚ) 0) (Vec3.mk (-66 : ℚ) (-99 : ℚ) (-5 : ℚ)) (Vec3.mk 66 33 0),
   Tri.mk (Vec3.mk 66 33 0) (Vec3.mk (-66 : ℚ) (-99 : ℚ) (-5 : ℚ)) (Vec3.mk 66 33 (-5 : ℚ)),
   Tri.mk (Vec3.mk (-48 : ℚ) (-72 : ℚ) 0) (Vec3.mk 48 24 0) (Vec3.mk (-48 : ℚ) (-72 : ℚ) (-5 : ℚ)),
   Tri.mk (Vec3.mk 48 24 0) (Vec3.mk 48 24 (-5 : ℚ)) (Vec3.mk (-48 : ℚ) (-72 : ℚ) (-5 : ℚ)),
   Tri.mk (Vec3.mk (-66 : ℚ) (-99 : ℚ) (-5 : ℚ)) (Vec3.mk (-48 : ℚ) (-72 : ℚ) (-5 : ℚ)) (Vec3.mk 66 33 (-5 : ℚ)),
   Tri.mk (Vec3.mk (-48 : ℚ) (-72 : ℚ) (-5 : ℚ)) (Vec3.mk 48 24 (-5 : ℚ)) (Vec3.mk 66 33 (-5 : ℚ))]

lemma hr3 : List.range 3 = [0, 1, 2] := rfl

set_option maxHeartbeats 2000000 in
lemma hmesh10 : (generateSTL M10 img10 p10).triangles = mesh10L := by
  norm_num [generateSTL, buildMesh, cellTriangles, supportTriangles, hmLookup,
    processImageToHeightMap, luminance, mapHeightFromGrayscale, M10, p10, img10, hr3, mesh10L,
    List.flatMap_cons, List.flatMap_nil, getD_map_range]

/-- The outer-rim edges at `z = minHeight` of the C10 instance mesh:
where the bottom surface, the outer wall, the connecting face and the
outer vertical wall of the stand meet. -/
def exc10 : List (Vec3 × Vec3) :=
  [(⟨66, 33, 0⟩, ⟨-33, 165, 0⟩), (⟨-33, 165, 0⟩, ⟨-66, -99, 0⟩), (⟨-66, -99, 0⟩, ⟨66, 33, 0⟩)]

set_option maxRecDepth 40000 in
set_option maxHeartbeats 4000000 in
/-- Claim C10, as stated, is false: in the C10 instance (valid
parameters, resolution 3), the outer-rim edge at `z = minHeight` from
`(66, 33, 0)` to `(-33, 165, 0)` is shared by four triangles, not two —
and it is a bottom-plane edge, not part of the top ring-wrap boundary. -/
theorem C10_edge_shared_by_four_counterexample :
    p10.innerDiameter < p10.outerDiameter ∧ p10.minHeight < p10.maxHeight
    ∧ 0 < p10.wallDistance ∧ p10.wallDistance < p10.outerDiameter / 2
    ∧ edgeCount (generateSTL M10 img10 p10).triangles (⟨66, 33, 0⟩, ⟨-33, 165, 0⟩) = 4
    ∧ (Vec3.mk 66 33 0).z = p10.minHeight ∧ (Vec3.mk (-33) 165 0).z = p10.minHeight
    ∧ (4 : ℕ) ≠ 2 := by
  refine ⟨by norm_num [p10], by norm_num [p10], by norm_num [p10], by norm_num [p10],
    ?_, by norm_num [p10], by norm_num [p10], by norm_num⟩
  rw [hmesh10]
  decide

set_option maxRecDepth 40000 in
set_option maxHeartbeats 8000000 in
/-- Claim C10 amended: in the C10 instance every mesh edge is shared by
exactly two triangles, except the outer-rim edges at `z = minHeight`
(the `exc10` list), each shared by exactly four; under the exact
(periodic) trigonometric oracle of the instance the top angular seam closes, so
no further boundary needs excluding. -/
theorem C10_edge_census_amended :
    censusOK (generateSTL M10 img10 p10).triangles exc10 = true
    ∧ (∀ e ∈ exc10, e.1.z = p10.minHeight ∧ e.2.z = p10.minHeight) := by
  constructor
  · rw [hmesh10]
    decide
  · intro e he
    fin_cases he <;> exact ⟨rfl, rfl⟩

end STLitho
